import Mathlib

/-!
A shallow embedding of the appointment-scheduling core of the beauty-salon
backend (Django app `apps.appointments`, with the parts of `apps.core`,
`apps.staff` and `apps.services` it depends on), together with proofs about
the conflict checker, the slot generator, the booking validation path and the
appointment status state machine.

Modelling conventions:
* All timestamps and times-of-day are whole minutes, represented as `Int`
  (`scheduled_start_time`/`scheduled_end_time` as minutes from a fixed epoch,
  working-hours times as minutes from midnight).  `timedelta.total_seconds()/60`
  on such values is exact, so the duration of an appointment in minutes is
  `endTime - startTime`.
* The Django ORM query set `Appointment.objects` is a `List Appt` passed
  explicitly.  `Appointment` inherits from `BaseModel` only (it does not mix in
  `SalonModelMixin` from `apps/core/models.py`), so its default manager is the
  plain `models.Manager`, which does *not* filter on `is_deleted`; the lists
  modelling query results therefore carry soft-deleted rows too, and the
  embedded queries ignore `isDeleted` exactly as the source queries do.
* A fallible ORM read is an `Except DbError (List Appt)` argument: `.ok db`
  is a successful query, `.error .failure` stands for an arbitrary exception
  raised by the data layer inside the `try` block.
* Primary keys are `Option Nat` (`None` before the row is inserted, as in
  Django).  Python truthiness tests on them (`if self.pk:`,
  `if exclude_appointment_id:`) are translated exactly: `none` and `some 0`
  are falsy.
-/

namespace Salon

/-- `Appointment.AppointmentStatus` (models.py lines 27-37). -/
inductive Status where
  | pending
  | confirmed
  | checkedIn
  | inProgress
  | completed
  | cancelled
  | noShow
deriving DecidableEq, Repr, Fintype

/-- `Appointment.PaymentStatus` (models.py lines 39-46). -/
inductive PaymentStatus where
  | pending
  | partiallyPaid
  | paid
  | refunded
deriving DecidableEq, Repr, Fintype

/-- A row of the `appointments` table / an in-memory `Appointment` instance
(models.py lines 21-123).  `pk = none` is an unsaved instance. -/
structure Appt where
  pk : Option Nat
  clientId : Nat
  serviceId : Nat
  staffId : Nat
  startTime : Int
  endTime : Int
  status : Status
  paymentStatus : PaymentStatus
  price : Int
  actualStart : Option Int
  actualEnd : Option Int
  isDeleted : Bool
deriving DecidableEq, Repr

/-- An exception raised by the data layer during a query. -/
inductive DbError where
  | failure
deriving DecidableEq, Repr

/-- The conflict predicate built by `AppointmentService.check_staff_availability`
(services.py lines 41-52): `Q(staff_member=…, scheduled_start_time__lt=end,
scheduled_end_time__gt=start)`, minus the excluded id when
`exclude_appointment_id` is truthy, minus cancelled appointments. -/
def staffConflict (staff : Nat) (startT endT : Int) (exclude : Option Nat) (a : Appt) : Bool :=
  decide (a.staffId = staff) && decide (a.startTime < endT) && decide (a.endTime > startT) &&
  (match exclude with
   | none => true
   | some i => if i = 0 then true else decide (a.pk ≠ some i)) &&
  decide (a.status ≠ Status.cancelled)

/-- `AppointmentService.check_staff_availability` (services.py lines 20-60).
The whole body is wrapped in `try … except Exception: return False`, so a
failing query yields `false` ("not available") rather than an error. -/
def check_staff_availability (fetch : Except DbError (List Appt)) (staff : Nat)
    (startT endT : Int) (exclude : Option Nat) : Bool :=
  match fetch with
  | .ok db => !(db.any (staffConflict staff startT endT exclude))
  | .error _ => false

/-- The conflict predicate of `AppointmentService.check_client_availability`
(services.py lines 83-94); identical to the staff one but keyed on `client`. -/
def clientConflict (client : Nat) (startT endT : Int) (exclude : Option Nat) (a : Appt) : Bool :=
  decide (a.clientId = client) && decide (a.startTime < endT) && decide (a.endTime > startT) &&
  (match exclude with
   | none => true
   | some i => if i = 0 then true else decide (a.pk ≠ some i)) &&
  decide (a.status ≠ Status.cancelled)

/-- `AppointmentService.check_client_availability` (services.py lines 62-102). -/
def check_client_availability (fetch : Except DbError (List Appt)) (client : Nat)
    (startT endT : Int) (exclude : Option Nat) : Bool :=
  match fetch with
  | .ok db => !(db.any (clientConflict client startT endT exclude))
  | .error _ => false

/-! ### Slot generator (`AppointmentService.get_available_time_slots`) -/

/-- The filter applied to `Appointment.objects` in
`get_available_time_slots` (services.py lines 130-140): same staff member,
`scheduled_start_time` within the day, status in the four active statuses. -/
def activeOnDay (staff : Nat) (dayStart dayEnd : Int) (a : Appt) : Bool :=
  decide (a.staffId = staff) && decide (dayStart ≤ a.startTime) &&
  decide (a.startTime ≤ dayEnd) &&
  decide (a.status = Status.pending ∨ a.status = Status.confirmed ∨
          a.status = Status.checkedIn ∨ a.status = Status.inProgress)

/-- The per-appointment overlap test inside the slot loop
(services.py lines 151-155): `current_time < appointment.scheduled_end_time
and slot_end > appointment.scheduled_start_time`. -/
def slotConflict (slotStart slotEnd : Int) (a : Appt) : Bool :=
  decide (slotStart < a.endTime) && decide (slotEnd > a.startTime)

/-- The `while` loop of `get_available_time_slots` (services.py lines 144-161):
candidates step forward 30 minutes at a time while
`current_time + service_duration <= working_hours_end`; a candidate survives
when it overlaps none of the fetched appointments. -/
def slotsLoop (appts : List Appt) (dur whEnd : Int) (current : Int) : List (Int × Int) :=
  if h : current + dur ≤ whEnd then
    let slotEnd := current + dur
    let rest := slotsLoop appts dur whEnd (current + 30)
    if appts.any (slotConflict current slotEnd) then rest else (current, slotEnd) :: rest
  else []
termination_by ((whEnd - dur) - current + 30).toNat
decreasing_by omega

/-- `AppointmentService.get_available_time_slots` (services.py lines 104-166).
`date` is the midnight of the requested day in minutes; `day_start`/`day_end`
are `date.replace(hour=0, minute=0, …)` and `date.replace(hour=23, minute=59, …)`
(minute granularity here, so `date` and `date + 1439`).  The surrounding
`try … except Exception: return []` turns a failing query into `[]`.
Note: no break window is consulted anywhere in this function. -/
def get_available_time_slots (fetch : Except DbError (List Appt)) (staff : Nat)
    (date : Int) (serviceDuration : Int) (whStart whEnd : Int) : List (Int × Int) :=
  match fetch with
  | .error _ => []
  | .ok db =>
    let dayStart := date
    let dayEnd := date + 1439
    let existing := db.filter (activeOnDay staff dayStart dayEnd)
    slotsLoop existing serviceDuration whEnd whStart

/-- A row of `staff_working_hours` (`WorkingHours`, staff/models.py lines
295-350): per-weekday window with optional break pair.  Times of day are
minutes from midnight. -/
structure WorkingHours where
  dayOfWeek : Nat
  startTime : Int
  endTime : Int
  breakStart : Option Int
  breakEnd : Option Int
  isAvailable : Bool
deriving DecidableEq, Repr

/-- The availability endpoint `check_availability` (appointments/api.py lines
464-529), from the point where the `WorkingHours` row has been looked up:
`wh = none` models the `except` branch taken when
`staff_member.working_hours.get(day_of_week=…, is_available=True)` raises
(no row, or the row is unavailable), which returns an empty slot list.
Otherwise `working_start`/`working_end` are `datetime.combine(date, wh.start_time)`
and `datetime.combine(date, wh.end_time)` and the slot generator runs.
The break fields of the row are never read on this path. -/
def check_availability_slots (wh : Option WorkingHours) (fetch : Except DbError (List Appt))
    (staff : Nat) (serviceDuration : Int) (dateMidnight : Int) : List (Int × Int) :=
  match wh with
  | none => []
  | some w =>
    get_available_time_slots fetch staff dateMidnight serviceDuration
      (dateMidnight + w.startTime) (dateMidnight + w.endTime)

/-! ### Status state machine and `Appointment.save` -/

/-- `Appointment._is_valid_status_transition` (models.py lines 186-198). -/
def is_valid_status_transition (fromS toS : Status) : Bool :=
  decide (toS ∈ (
    match fromS with
    | Status.pending => [Status.confirmed, Status.cancelled]
    | Status.confirmed => [Status.checkedIn, Status.cancelled, Status.noShow]
    | Status.checkedIn => [Status.inProgress, Status.noShow]
    | Status.inProgress => [Status.completed, Status.cancelled]
    | Status.completed => []
    | Status.cancelled => [Status.pending]
    | Status.noShow => [Status.pending]))

/-- The ways `Appointment.save` / `Appointment.clean` can raise
(models.py lines 157-254).  `attributeError` is the `AttributeError` raised at
models.py line 180: `Appointment.objects_with_deleted` does not exist, because
`Appointment` inherits only `BaseModel` and never mixes in `SalonModelMixin`
(core/models.py lines 83-89), and the surrounding `except
Appointment.DoesNotExist` does not catch it.  `invalidTransition` is the
`ValidationError` of models.py line 182 naming the from/to pair — unreachable
in the code as written, kept so that statements can talk about it. -/
inductive SaveErr where
  | validationRange
  | validationDuration (scheduled expected : Int)
  | validationPrice
  | invalidTransition (fromS toS : Status)
  | attributeError
  | notifyException
deriving DecidableEq, Repr

/-- `Appointment.clean` (models.py lines 157-184), for an instance whose
scheduled times are set.  Checks, in source order: start before end; duration
equals `service.total_duration_minutes`; non-negative price (`if self.price
and self.price < 0` — a zero price is falsy and skips the test, but `0 < 0`
fails anyway, so plain `price < 0` is equivalent); and, when `self.pk` is
truthy, the status-transition block, whose first statement
`Appointment.objects_with_deleted.get(pk=self.pk)` raises `AttributeError`. -/
def cleanAppt (a : Appt) (serviceDuration : Int) : Except SaveErr Unit :=
  if a.startTime ≥ a.endTime then .error .validationRange
  else if a.endTime - a.startTime ≠ serviceDuration then
    .error (.validationDuration (a.endTime - a.startTime) serviceDuration)
  else if a.price < 0 then .error .validationPrice
  else
    match a.pk with
    | none => .ok ()
    | some i => if i = 0 then .ok () else .error .attributeError

/-- Outcome of a `NotificationService.send_*` call made inside
`Appointment.save` (models.py lines 230-251): it may return normally, raise
`ImportError`/`AttributeError` (swallowed by the `except` at line 252), or
raise any other exception (which propagates to the caller). -/
inductive NotifyOutcome where
  | success
  | importError
  | attributeError
  | otherException
deriving DecidableEq, Repr

/-- `super().save()` (the actual database write): insert the instance with a
fresh id when `pk` is `None`, otherwise update the row in place. -/
def persistAppt (db : List Appt) (a : Appt) (newId : Nat) : List Appt :=
  match a.pk with
  | none => db ++ [{ a with pk := some newId }]
  | some _ => db.map fun r => if r.pk = a.pk then a else r

/-- Whether `Appointment.save` reaches a `NotificationService.send_*` call
(models.py lines 229-251): always for a new instance (confirmation); for an
update, only when the stored status differs from the new one and either the
change is `pending → confirmed` (confirmation) or the new status is
`cancelled` (cancellation).  `old_status` comes from
`Appointment.objects.get(pk=…)` at line 208 and stays `None` when the row is
missing. -/
def notificationSends (db : List Appt) (a : Appt) : Bool :=
  match a.pk with
  | none => true
  | some _ =>
    let oldStatus : Option Status := (db.find? fun r => decide (r.pk = a.pk)).map (·.status)
    if oldStatus ≠ some a.status then
      decide ((oldStatus = some Status.pending ∧ a.status = Status.confirmed) ∨
              a.status = Status.cancelled)
    else false

instance {ε α : Type} [DecidableEq ε] [DecidableEq α] : DecidableEq (Except ε α) := fun
  | .ok a, .ok b =>
    if h : a = b then isTrue (by rw [h]) else isFalse (fun hc => h (Except.ok.inj hc))
  | .ok _, .error _ => isFalse Except.noConfusion
  | .error _, .ok _ => isFalse Except.noConfusion
  | .error e, .error f =>
    if h : e = f then isTrue (by rw [h]) else isFalse (fun hc => h (Except.error.inj hc))

/-- Result of `Appointment.save`: the database after the call together with
the call's outcome (`.ok` for a normal return, `.error` for a propagated
exception). -/
structure SaveOut where
  db : List Appt
  result : Except SaveErr Unit
deriving DecidableEq, Repr

/-- `Appointment.save` (models.py lines 200-254): run `clean` (any exception
aborts before the write), then `super().save()`, then the notification block,
whose `ImportError`/`AttributeError` are swallowed while any other exception
propagates — after the database write has already happened. -/
def saveAppt (db : List Appt) (a : Appt) (serviceDuration : Int) (newId : Nat)
    (notify : NotifyOutcome) : SaveOut :=
  match cleanAppt a serviceDuration with
  | .error e => ⟨db, .error e⟩
  | .ok _ =>
    let db' := persistAppt db a newId
    if notificationSends db a then
      match notify with
      | .otherException => ⟨db', .error .notifyException⟩
      | _ => ⟨db', .ok ()⟩
    else ⟨db', .ok ()⟩

/-- `Appointment.complete` (models.py lines 306-312): only an `in_progress`
appointment is touched; the method sets `status = completed`,
`actual_end_time = now()` and `payment_status = paid` on the instance and then
calls `save`. -/
def completeAppt (db : List Appt) (a : Appt) (serviceDuration : Int) (newId : Nat)
    (now : Int) (notify : NotifyOutcome) : SaveOut :=
  if a.status = Status.inProgress then
    saveAppt db { a with status := Status.completed, actualEnd := some now,
                         paymentStatus := PaymentStatus.paid }
      serviceDuration newId notify
  else ⟨db, .ok ()⟩

/-! ### Booking validation and creation -/

/-- `AppointmentService.validate_appointment_time` (services.py lines
168-201): past-time check, then ordering check, then the staff conflict
check, returning the `(is_valid, error_message)` pair of the source. -/
def validate_appointment_time (fetch : Except DbError (List Appt)) (staff : Nat)
    (startT endT : Int) (exclude : Option Nat) (now : Int) : Bool × String :=
  if startT < now then (false, "Cannot schedule appointments in the past")
  else if startT ≥ endT then (false, "Start time must be before end time")
  else if !(check_staff_availability fetch staff startT endT exclude) then
    (false, "Staff member is not available at the requested time")
  else (true, "")

/-- The exceptions the `create_appointment` endpoint can surface. -/
inductive ApiErr where
  | validationError (msg : String)
  | durationMismatch (scheduled expected : Int)
  | saveError (e : SaveErr)
deriving DecidableEq, Repr

/-- The `create_appointment` endpoint (appointments/api.py lines 28-87) after
the three `get_object_or_404` lookups: call `validate_appointment_time`
(which checks past time, ordering and the staff conflict, in that order) and
reject on failure; then compare the requested duration with
`service.total_duration_minutes` and reject on mismatch; only then
`Appointment.objects.create(...)`, which builds a `pending` instance with no
pk and saves it.  `dbFail` makes the availability query inside the validator
raise.  The returned list is the appointment table after the call. -/
def create_appointment (db : List Appt) (dbFail : Bool) (now : Int)
    (clientId serviceId staffId : Nat) (serviceDuration : Int)
    (startT endT : Int) (price : Int) (newId : Nat) (notify : NotifyOutcome) :
    List Appt × Except ApiErr Unit :=
  let fetch : Except DbError (List Appt) := if dbFail then .error .failure else .ok db
  let v := validate_appointment_time fetch staffId startT endT none now
  if !v.1 then (db, .error (.validationError v.2))
  else if endT - startT ≠ serviceDuration then
    (db, .error (.durationMismatch (endT - startT) serviceDuration))
  else
    let a : Appt :=
      { pk := none, clientId := clientId, serviceId := serviceId, staffId := staffId,
        startTime := startT, endTime := endT, status := Status.pending,
        paymentStatus := PaymentStatus.pending, price := price,
        actualStart := none, actualEnd := none, isDeleted := false }
    let out := saveAppt db a serviceDuration newId notify
    match out.result with
    | .ok _ => (out.db, .ok ())
    | .error er => (out.db, .error (.saveError er))

/-! ## Helper lemmas -/

theorem slotsLoop_mem (appts : List Appt) (dur whEnd : Int) (current : Int) :
    ∀ p ∈ slotsLoop appts dur whEnd current,
      current ≤ p.1 ∧ p.2 = p.1 + dur ∧ p.2 ≤ whEnd ∧
        appts.any (slotConflict p.1 p.2) = false := by
  induction current using slotsLoop.induct appts dur whEnd with
  | case1 cur h se hc ih =>
    intro p hp
    rw [slotsLoop] at hp
    simp only [dif_pos h, hc, if_true] at hp
    have := ih p hp
    exact ⟨by omega, this.2⟩
  | case2 cur h se hc ih =>
    intro p hp
    rw [slotsLoop] at hp
    simp only [dif_pos h] at hp
    rw [if_neg (by simp [hc])] at hp
    rcases List.mem_cons.mp hp with rfl | hp'
    · exact ⟨le_refl _, rfl, h, by simpa using hc⟩
    · have := ih p hp'
      exact ⟨by omega, this.2⟩
  | case3 cur h =>
    intro p hp
    rw [slotsLoop] at hp
    simp [dif_neg h] at hp

theorem slotsLoop_sorted (appts : List Appt) (dur whEnd : Int) (current : Int) :
    (slotsLoop appts dur whEnd current).Pairwise (fun p q => p.1 < q.1) := by
  induction current using slotsLoop.induct appts dur whEnd with
  | case1 cur h se hc ih =>
    rw [slotsLoop]
    simp only [dif_pos h, hc, if_true]
    exact ih
  | case2 cur h se hc ih =>
    rw [slotsLoop]
    simp only [dif_pos h]
    rw [if_neg (by simp [hc])]
    refine List.Pairwise.cons ?_ ih
    intro q hq
    have := slotsLoop_mem appts dur whEnd (cur + 30) q hq
    omega
  | case3 cur h =>
    rw [slotsLoop]
    simp [dif_neg h]

/-! ## Claims -/

/-- C1: for every staff member (and client) and proposed interval `[start, end)`,
the availability check reports a conflict (returns `false`) iff some
appointment of that subject with status other than `cancelled`, with id
different from `exclude_id` when one is given, satisfies the half-open
overlap `a_start < end ∧ start < a_end`.  The hypothesis records that
database primary keys are positive (Django `AutoField` ids start at 1),
which bridges the Python truthiness test `if exclude_appointment_id:`. -/
theorem conflict_check_iff (db : List Appt) (staff client : Nat) (s e : Int)
    (ex : Option Nat) (hid : ∀ a ∈ db, ∀ i, a.pk = some i → 1 ≤ i) :
    (check_staff_availability (Except.ok db) staff s e ex = false ↔
      ∃ a ∈ db, a.staffId = staff ∧ a.status ≠ Status.cancelled ∧
        (∀ i, ex = some i → a.pk ≠ some i) ∧ a.startTime < e ∧ s < a.endTime) ∧
    (check_client_availability (Except.ok db) client s e ex = false ↔
      ∃ a ∈ db, a.clientId = client ∧ a.status ≠ Status.cancelled ∧
        (∀ i, ex = some i → a.pk ≠ some i) ∧ a.startTime < e ∧ s < a.endTime) := by
  constructor
  · rw [show (check_staff_availability (Except.ok db) staff s e ex = false) ↔
        (db.any (staffConflict staff s e ex) = true) from by
      simp [check_staff_availability]]
    rw [List.any_eq_true]
    constructor
    · rintro ⟨a, ha, hpred⟩
      simp only [staffConflict, Bool.and_eq_true, decide_eq_true_eq] at hpred
      obtain ⟨⟨⟨⟨hstaff, hlt⟩, hgt⟩, hex⟩, hst⟩ := hpred
      refine ⟨a, ha, hstaff, hst, ?_, hlt, hgt⟩
      rintro i rfl
      by_cases hi : i = 0
      · subst hi
        intro hpk
        exact absurd (hid a ha 0 hpk) (by omega)
      · have hex' : (if i = 0 then true else decide (a.pk ≠ some i)) = true := hex
        rw [if_neg hi] at hex'
        exact of_decide_eq_true hex'
    · rintro ⟨a, ha, hstaff, hst, hex, hlt, hgt⟩
      refine ⟨a, ha, ?_⟩
      simp only [staffConflict, Bool.and_eq_true, decide_eq_true_eq]
      refine ⟨⟨⟨⟨hstaff, hlt⟩, hgt⟩, ?_⟩, hst⟩
      cases ex with
      | none => rfl
      | some i =>
        show (if i = 0 then true else decide (a.pk ≠ some i)) = true
        by_cases hi : i = 0
        · rw [if_pos hi]
        · rw [if_neg hi]
          exact decide_eq_true (hex i rfl)
  · rw [show (check_client_availability (Except.ok db) client s e ex = false) ↔
        (db.any (clientConflict client s e ex) = true) from by
      simp [check_client_availability]]
    rw [List.any_eq_true]
    constructor
    · rintro ⟨a, ha, hpred⟩
      simp only [clientConflict, Bool.and_eq_true, decide_eq_true_eq] at hpred
      obtain ⟨⟨⟨⟨hclient, hlt⟩, hgt⟩, hex⟩, hst⟩ := hpred
      refine ⟨a, ha, hclient, hst, ?_, hlt, hgt⟩
      rintro i rfl
      by_cases hi : i = 0
      · subst hi
        intro hpk
        exact absurd (hid a ha 0 hpk) (by omega)
      · have hex' : (if i = 0 then true else decide (a.pk ≠ some i)) = true := hex
        rw [if_neg hi] at hex'
        exact of_decide_eq_true hex'
    · rintro ⟨a, ha, hclient, hst, hex, hlt, hgt⟩
      refine ⟨a, ha, ?_⟩
      simp only [clientConflict, Bool.and_eq_true, decide_eq_true_eq]
      refine ⟨⟨⟨⟨hclient, hlt⟩, hgt⟩, ?_⟩, hst⟩
      cases ex with
      | none => rfl
      | some i =>
        show (if i = 0 then true else decide (a.pk ≠ some i)) = true
        by_cases hi : i = 0
        · rw [if_pos hi]
        · rw [if_neg hi]
          exact decide_eq_true (hex i rfl)

/-- One stored appointment used to witness C1: staff 4, client 7, booked
`[600, 630)`, pending, not deleted. -/
def dbC1 : List Appt :=
  [{ pk := some 1, clientId := 7, serviceId := 3, staffId := 4,
     startTime := 600, endTime := 630, status := Status.pending,
     paymentStatus := PaymentStatus.pending, price := 50,
     actualStart := none, actualEnd := none, isDeleted := false }]

/-- Witness for C1 at a concrete database, subject and interval. -/
theorem conflict_check_iff_witness :
    (check_staff_availability (Except.ok dbC1) 4 610 640 (some 2) = false ↔
      ∃ a ∈ dbC1, a.staffId = 4 ∧ a.status ≠ Status.cancelled ∧
        (∀ i, (some 2 : Option Nat) = some i → a.pk ≠ some i) ∧
        a.startTime < 640 ∧ (610 : Int) < a.endTime) ∧
    (check_client_availability (Except.ok dbC1) 7 610 640 (some 2) = false ↔
      ∃ a ∈ dbC1, a.clientId = 7 ∧ a.status ≠ Status.cancelled ∧
        (∀ i, (some 2 : Option Nat) = some i → a.pk ≠ some i) ∧
        a.startTime < 640 ∧ (610 : Int) < a.endTime) :=
  conflict_check_iff dbC1 4 7 610 640 (some 2) (by decide)

/-- C2 (amended): every slot returned by `get_available_time_slots` starts at
or after the working-hours start, has length `service_duration`, ends at or
before the working-hours end, and overlaps no fetched active appointment
(half-open rule); the slots are emitted in strictly ascending order.  The
break window, however, is **not** consulted on this path — see
`slots_ignore_break`. -/
theorem slots_sound (db : List Appt) (staff : Nat) (date dur ws we : Int) :
    (∀ p ∈ get_available_time_slots (Except.ok db) staff date dur ws we,
        ws ≤ p.1 ∧ p.2 = p.1 + dur ∧ p.2 ≤ we ∧
        ∀ a ∈ db, activeOnDay staff date (date + 1439) a = true →
          ¬(p.1 < a.endTime ∧ a.startTime < p.2)) ∧
    (get_available_time_slots (Except.ok db) staff date dur ws we).Pairwise
      (fun p q => p.1 < q.1) := by
  constructor
  · intro p hp
    have hmem := slotsLoop_mem (db.filter (activeOnDay staff date (date + 1439))) dur we ws p hp
    refine ⟨hmem.1, hmem.2.1, hmem.2.2.1, ?_⟩
    intro a ha hact hover
    have hfa : a ∈ db.filter (activeOnDay staff date (date + 1439)) :=
      List.mem_filter.mpr ⟨ha, hact⟩
    have hall := List.any_eq_false.mp hmem.2.2.2 a hfa
    simp only [slotConflict, Bool.and_eq_true, decide_eq_true_eq] at hall
    exact hall ⟨hover.1, hover.2⟩
  · exact slotsLoop_sorted _ dur we ws

/-- One stored appointment used to witness C2: staff 4 has a pending booking
`[600, 630)` on the requested day. -/
def dbC2 : List Appt :=
  [{ pk := some 2, clientId := 9, serviceId := 3, staffId := 4,
     startTime := 600, endTime := 630, status := Status.pending,
     paymentStatus := PaymentStatus.pending, price := 40,
     actualStart := none, actualEnd := none, isDeleted := false }]

/-- Witness for C2 at a concrete input: staff 4 works `[540, 660)` with one
pending appointment `[600, 630)`; the returned slot `(540, 570)` satisfies
every clause. -/
theorem slots_sound_witness :
    (540 : Int) ≤ 540 ∧ (570 : Int) = 540 + 30 ∧ (570 : Int) ≤ 660 ∧
      ∀ a ∈ dbC2, activeOnDay 4 0 (0 + 1439) a = true →
        ¬((540 : Int) < a.endTime ∧ a.startTime < (570 : Int)) :=
  (slots_sound dbC2 4 0 30 540 660).1 (540, 570)
    (by simp [get_available_time_slots, slotsLoop, slotConflict, activeOnDay, dbC2])

/-- A working-hours row for C2's counterexample: Monday 09:00–17:00 with a
break 12:00–13:00 (`720`–`780` minutes). -/
def whC2 : WorkingHours :=
  { dayOfWeek := 1, startTime := 540, endTime := 1020,
    breakStart := some 720, breakEnd := some 780, isAvailable := true }

/-- Counterexample for C2 as stated: with the break 12:00–13:00 set and no
appointments at all, the availability path still returns the slot
`[720, 750)`, which intersects the break window `[720, 780)` under the
half-open overlap rule (`720 < 780 ∧ 720 < 750`). -/
theorem slots_ignore_break :
    (720, 750) ∈ check_availability_slots (some whC2) (Except.ok []) 1 30 0 ∧
    whC2.breakStart = some 720 ∧ whC2.breakEnd = some 780 ∧
    ((720 : Int) < 780 ∧ (720 : Int) < 750) := by
  refine ⟨?_, rfl, rfl, by norm_num⟩
  simp [check_availability_slots, get_available_time_slots, slotsLoop, whC2]

/-- The legal-transition table exactly as C3 lists it (the spec's table). -/
def specTransitionTable (fromS toS : Status) : Bool :=
  decide ((fromS, toS) ∈ ([
    (Status.pending, Status.confirmed), (Status.pending, Status.cancelled),
    (Status.confirmed, Status.checkedIn), (Status.confirmed, Status.cancelled),
    (Status.confirmed, Status.noShow),
    (Status.checkedIn, Status.inProgress), (Status.checkedIn, Status.noShow),
    (Status.inProgress, Status.completed), (Status.inProgress, Status.cancelled),
    (Status.cancelled, Status.pending), (Status.noShow, Status.pending)] :
    List (Status × Status)))

/-- A stored pending appointment used as C3's failing input. -/
def apptC3 : Appt :=
  { pk := some 1, clientId := 7, serviceId := 3, staffId := 4,
    startTime := 0, endTime := 30, status := Status.pending,
    paymentStatus := PaymentStatus.pending, price := 25,
    actualStart := none, actualEnd := none, isDeleted := false }

/-- The appointment table holding `apptC3`. -/
def dbC3 : List Appt := [apptC3]

/-- C3: `_is_valid_status_transition` agrees with the claimed table on every
pair of states, but attempting the (illegal) transition `pending → completed`
on a stored appointment does not fail with the `ValidationError` naming the
from/to pair: `clean` crashes first with the `AttributeError` from
`Appointment.objects_with_deleted` (which `Appointment` never defines), so
every save of an existing appointment — legal target or not — raises
`AttributeError` and leaves the stored row unchanged.  The repository's own
test `test_invalid_status_transitions` expects a `ValidationError` here, so
this is a code bug rather than a spec error. -/
theorem transition_table_bug :
    (∀ fromS toS, is_valid_status_transition fromS toS = specTransitionTable fromS toS) ∧
    saveAppt dbC3 { apptC3 with status := Status.completed } 30 2 NotifyOutcome.success =
      ⟨dbC3, Except.error SaveErr.attributeError⟩ ∧
    SaveErr.attributeError ≠ SaveErr.invalidTransition Status.pending Status.completed :=
  ⟨by decide, by decide, by decide⟩

/-- A stored in-progress appointment used as C7's failing input. -/
def apptC7 : Appt :=
  { pk := some 1, clientId := 8, serviceId := 3, staffId := 5,
    startTime := 0, endTime := 30, status := Status.inProgress,
    paymentStatus := PaymentStatus.pending, price := 25,
    actualStart := some 0, actualEnd := none, isDeleted := false }

/-- The appointment table holding `apptC7`. -/
def dbC7 : List Appt := [apptC7]

/-- The in-memory mutation `complete()` performs on `apptC7` before saving. -/
def apptC7completed : Appt :=
  { apptC7 with status := Status.completed, actualEnd := some 1000,
                paymentStatus := PaymentStatus.paid }

/-- C7: in the transition table only `in_progress` admits `completed`, and
`Appointment.complete` does set `status = completed`,
`actual_end_time = now()` and `payment_status = paid` on the instance —
but the `save()` it then calls crashes in `clean` with the
`objects_with_deleted` `AttributeError`, so nothing (status, end time or
payment status) is ever persisted: the stored row is unchanged and the call
raises.  The repository's own test `test_appointment_status_transitions`
expects `complete()` to succeed, so this is a code bug. -/
theorem complete_transition_bug :
    (∀ s, is_valid_status_transition s Status.completed = decide (s = Status.inProgress)) ∧
    completeAppt dbC7 apptC7 30 2 1000 NotifyOutcome.success =
      ⟨dbC7, Except.error SaveErr.attributeError⟩ ∧
    (saveAppt dbC7 apptC7completed 30 2 NotifyOutcome.success).db = dbC7 :=
  ⟨by decide, by decide, by decide⟩

/-- C8: the appointment state persisted by `save` never depends on the outcome
of the notification collaborator: the database write happens strictly before
any `NotificationService` call, `ImportError`/`AttributeError` from it are
swallowed, and any other exception propagates only after the write, which is
not rolled back.  In particular, whenever `clean` passes, the persisted table
equals `persistAppt db a newId` for every notification outcome, failing ones
included. -/
theorem notification_failure_no_rollback (db : List Appt) (a : Appt)
    (dur : Int) (newId : Nat) :
    (∀ n₁ n₂ : NotifyOutcome, (saveAppt db a dur newId n₁).db = (saveAppt db a dur newId n₂).db) ∧
    (cleanAppt a dur = Except.ok () →
      ∀ n : NotifyOutcome, (saveAppt db a dur newId n).db = persistAppt db a newId) := by
  constructor
  · intro n₁ n₂
    unfold saveAppt
    cases cleanAppt a dur with
    | error e => rfl
    | ok u =>
      cases u
      by_cases hns : notificationSends db a
      · simp only [hns, if_true]
        cases n₁ <;> cases n₂ <;> rfl
      · simp only [hns, if_false, Bool.false_eq_true]
  · intro hclean n
    unfold saveAppt
    rw [hclean]
    by_cases hns : notificationSends db a
    · simp only [hns, if_true]
      cases n <;> rfl
    · simp only [hns, if_false, Bool.false_eq_true]

/-- A fresh (unsaved) appointment used to witness C8: its creation triggers
the confirmation notification. -/
def apptC8 : Appt :=
  { pk := none, clientId := 11, serviceId := 3, staffId := 5,
    startTime := 2000, endTime := 2030, status := Status.pending,
    paymentStatus := PaymentStatus.pending, price := 25,
    actualStart := none, actualEnd := none, isDeleted := false }

/-- Witness for C8: for the concrete new appointment `apptC8` the persisted
table is the inserted row, also when the notification send raises. -/
theorem notification_failure_no_rollback_witness :
    (∀ n₁ n₂ : NotifyOutcome,
      (saveAppt [] apptC8 30 1 n₁).db = (saveAppt [] apptC8 30 1 n₂).db) ∧
    (saveAppt [] apptC8 30 1 NotifyOutcome.otherException).db = persistAppt [] apptC8 1 :=
  ⟨(notification_failure_no_rollback [] apptC8 30 1).1,
   (notification_failure_no_rollback [] apptC8 30 1).2 (by decide) NotifyOutcome.otherException⟩

/-- A stored pending appointment used as C9's failing input (a no-op edit,
e.g. changing only the notes, re-saves it with its status unchanged). -/
def apptC9 : Appt :=
  { pk := some 6, clientId := 12, serviceId := 2, staffId := 4,
    startTime := 300, endTime := 330, status := Status.pending,
    paymentStatus := PaymentStatus.pending, price := 30,
    actualStart := none, actualEnd := none, isDeleted := false }

/-- The appointment table holding `apptC9`. -/
def dbC9 : List Appt := [apptC9]

/-- C9: the transition table is irreflexive (`s → s` is never legal), so a
save that leaves the status unchanged cannot pass the transition validation —
but in the code as written such a save fails even earlier, with the
`objects_with_deleted` `AttributeError` in `clean`, not with the transition
`ValidationError`: re-saving `apptC9` unchanged raises `AttributeError` and
leaves the table as it was.  (Consequently `SoftDeleteModel.delete`, which
re-saves the row, crashes the same way.) -/
theorem no_noop_save :
    (∀ s, is_valid_status_transition s s = false) ∧
    saveAppt dbC9 apptC9 30 7 NotifyOutcome.success =
      ⟨dbC9, Except.error SaveErr.attributeError⟩ ∧
    SaveErr.attributeError ≠ SaveErr.invalidTransition Status.pending Status.pending :=
  ⟨by decide, by decide, by decide⟩

theorem validate_past (fetch : Except DbError (List Appt)) (staff : Nat) (s e : Int)
    (ex : Option Nat) (now : Int) (h : s < now) :
    validate_appointment_time fetch staff s e ex now =
      (false, "Cannot schedule appointments in the past") := by
  simp [validate_appointment_time, h]

theorem validate_range (fetch : Except DbError (List Appt)) (staff : Nat) (s e : Int)
    (ex : Option Nat) (now : Int) (h1 : ¬ s < now) (h2 : e ≤ s) :
    validate_appointment_time fetch staff s e ex now =
      (false, "Start time must be before end time") := by
  simp [validate_appointment_time, h1, h2]

theorem validate_conflict (fetch : Except DbError (List Appt)) (staff : Nat) (s e : Int)
    (ex : Option Nat) (now : Int) (h1 : ¬ s < now) (h2 : s < e)
    (h3 : check_staff_availability fetch staff s e ex = false) :
    validate_appointment_time fetch staff s e ex now =
      (false, "Staff member is not available at the requested time") := by
  have h2' : ¬ s ≥ e := not_le.mpr h2
  simp [validate_appointment_time, h1, h2', h3]

theorem validate_ok (fetch : Except DbError (List Appt)) (staff : Nat) (s e : Int)
    (ex : Option Nat) (now : Int) (h1 : ¬ s < now) (h2 : s < e)
    (h3 : check_staff_availability fetch staff s e ex = true) :
    validate_appointment_time fetch staff s e ex now = (true, "") := by
  have h2' : ¬ s ≥ e := not_le.mpr h2
  simp [validate_appointment_time, h1, h2', h3]

theorem create_of_validate_eq (db : List Appt) (dbFail : Bool) (now : Int)
    (cId svId stId : Nat) (dur s e price : Int) (newId : Nat) (notify : NotifyOutcome)
    (msg : String)
    (hv : validate_appointment_time (if dbFail then Except.error DbError.failure
            else Except.ok db) stId s e none now = (false, msg)) :
    create_appointment db dbFail now cId svId stId dur s e price newId notify =
      (db, Except.error (ApiErr.validationError msg)) := by
  simp [create_appointment, hv]

theorem create_duration_of_valid (db : List Appt) (dbFail : Bool) (now : Int)
    (cId svId stId : Nat) (dur s e price : Int) (newId : Nat) (notify : NotifyOutcome)
    (hv : (validate_appointment_time (if dbFail then Except.error DbError.failure
            else Except.ok db) stId s e none now).1 = true)
    (hdur : e - s ≠ dur) :
    create_appointment db dbFail now cId svId stId dur s e price newId notify =
      (db, Except.error (ApiErr.durationMismatch (e - s) dur)) := by
  simp [create_appointment, hv, hdur]

/-- C4 (amended): the booking path checks, in order and short-circuiting:
past time, start-before-end, **staff conflict**, and only then the duration
match — the conflict check precedes the duration check, so a request failing
both is rejected with the staff-unavailable rejection, not the
duration-mismatch one (see `conflict_checked_before_duration`). -/
theorem create_check_order (db : List Appt) (now : Int) (cId svId stId : Nat)
    (dur s e price : Int) (newId : Nat) (notify : NotifyOutcome) :
    (s < now →
      create_appointment db false now cId svId stId dur s e price newId notify =
        (db, Except.error (ApiErr.validationError "Cannot schedule appointments in the past"))) ∧
    (¬ s < now → e ≤ s →
      create_appointment db false now cId svId stId dur s e price newId notify =
        (db, Except.error (ApiErr.validationError "Start time must be before end time"))) ∧
    (¬ s < now → s < e → check_staff_availability (Except.ok db) stId s e none = false →
      create_appointment db false now cId svId stId dur s e price newId notify =
        (db, Except.error (ApiErr.validationError "Staff member is not available at the requested time"))) ∧
    (¬ s < now → s < e → check_staff_availability (Except.ok db) stId s e none = true →
      e - s ≠ dur →
      create_appointment db false now cId svId stId dur s e price newId notify =
        (db, Except.error (ApiErr.durationMismatch (e - s) dur))) := by
  refine ⟨?_, ?_, ?_, ?_⟩
  · intro h
    exact create_of_validate_eq db false now cId svId stId dur s e price newId notify _
      (validate_past _ stId s e none now h)
  · intro h1 h2
    exact create_of_validate_eq db false now cId svId stId dur s e price newId notify _
      (validate_range _ stId s e none now h1 h2)
  · intro h1 h2 h3
    exact create_of_validate_eq db false now cId svId stId dur s e price newId notify _
      (validate_conflict _ stId s e none now h1 h2 h3)
  · intro h1 h2 h3 hdur
    refine create_duration_of_valid db false now cId svId stId dur s e price newId notify ?_ hdur
    show (validate_appointment_time (Except.ok db) stId s e none now).1 = true
    rw [validate_ok _ stId s e none now h1 h2 h3]

/-- One stored appointment used by C4's counterexample and witness: staff 4
has a pending booking `[600, 630)`. -/
def dbC4 : List Appt :=
  [{ pk := some 1, clientId := 7, serviceId := 3, staffId := 4,
     startTime := 600, endTime := 630, status := Status.pending,
     paymentStatus := PaymentStatus.pending, price := 25,
     actualStart := none, actualEnd := none, isDeleted := false }]

/-- Witness for C4: the four branch conclusions at concrete inputs. -/
theorem create_check_order_witness :
    (create_appointment ([] : List Appt) false 100 7 3 4 30 50 80 0 1 NotifyOutcome.success =
      ([], Except.error (ApiErr.validationError "Cannot schedule appointments in the past"))) ∧
    (create_appointment ([] : List Appt) false 0 7 3 4 30 100 80 0 1 NotifyOutcome.success =
      ([], Except.error (ApiErr.validationError "Start time must be before end time"))) ∧
    (create_appointment dbC4 false 0 7 3 4 60 600 660 0 2 NotifyOutcome.success =
      (dbC4, Except.error (ApiErr.validationError "Staff member is not available at the requested time"))) ∧
    (create_appointment ([] : List Appt) false 0 7 3 4 30 600 660 0 1 NotifyOutcome.success =
      ([], Except.error (ApiErr.durationMismatch 60 30))) :=
  ⟨(create_check_order [] 100 7 3 4 30 50 80 0 1 NotifyOutcome.success).1 (by norm_num),
   (create_check_order [] 0 7 3 4 30 100 80 0 1 NotifyOutcome.success).2.1
     (by norm_num) (by norm_num),
   (create_check_order dbC4 0 7 3 4 60 600 660 0 2 NotifyOutcome.success).2.2.1
     (by norm_num) (by norm_num) (by decide),
   (create_check_order [] 0 7 3 4 30 600 660 0 1 NotifyOutcome.success).2.2.2
     (by norm_num) (by norm_num) (by decide) (by norm_num)⟩

/-- Counterexample for C4 as stated: a request whose duration (60) mismatches
the service duration (30) **and** conflicts with an existing appointment is
rejected with the staff-unavailable rejection — the conflict check runs
first, contradicting "rejected with DurationMismatchError before any conflict
check is consulted". -/
theorem conflict_checked_before_duration :
    create_appointment dbC4 false 0 7 3 4 30 600 660 0 2 NotifyOutcome.success =
      (dbC4, Except.error (ApiErr.validationError "Staff member is not available at the requested time")) ∧
    create_appointment dbC4 false 0 7 3 4 30 600 660 0 2 NotifyOutcome.success ≠
      (dbC4, Except.error (ApiErr.durationMismatch 60 30)) :=
  ⟨by decide, by decide⟩

/-- C5 (amended): a request whose duration mismatches
`service.total_duration_minutes` is always rejected and no appointment row is
created — but the rejection is `DurationMismatchError` only when the earlier
checks (past time, ordering, staff availability) pass; an input also failing
an earlier check is rejected with that earlier error instead (see
`past_mismatch_not_duration_error`). -/
theorem create_duration_mismatch_rejects (db : List Appt) (dbFail : Bool) (now : Int)
    (cId svId stId : Nat) (dur s e price : Int) (newId : Nat) (notify : NotifyOutcome)
    (hdur : e - s ≠ dur) :
    (create_appointment db dbFail now cId svId stId dur s e price newId notify).1 = db ∧
    (create_appointment db dbFail now cId svId stId dur s e price newId notify).2 ≠
      Except.ok () ∧
    (¬ s < now → s < e →
      check_staff_availability (if dbFail then Except.error DbError.failure
        else Except.ok db) stId s e none = true →
      create_appointment db dbFail now cId svId stId dur s e price newId notify =
        (db, Except.error (ApiErr.durationMismatch (e - s) dur))) := by
  by_cases hv : (validate_appointment_time (if dbFail then Except.error DbError.failure
      else Except.ok db) stId s e none now).1
  · have h := create_duration_of_valid db dbFail now cId svId stId dur s e price newId notify hv hdur
    rw [h]
    exact ⟨rfl, by simp, fun _ _ _ => rfl⟩
  · have hv' : validate_appointment_time (if dbFail then Except.error DbError.failure
        else Except.ok db) stId s e none now =
        (false, (validate_appointment_time (if dbFail then Except.error DbError.failure
          else Except.ok db) stId s e none now).2) := by
      rw [← Bool.eq_false_iff.mpr hv]
    have h := create_of_validate_eq db dbFail now cId svId stId dur s e price newId notify _ hv'
    rw [h]
    refine ⟨rfl, by simp, ?_⟩
    intro h1 h2 h3
    rw [validate_ok _ stId s e none now h1 h2 h3] at hv'
    exact absurd (congrArg Prod.fst hv') (by simp)

/-- Witness for C5 at a concrete mismatched request (duration 60 vs 30). -/
theorem create_duration_mismatch_rejects_witness :
    (create_appointment ([] : List Appt) false 0 7 3 4 30 600 660 0 1 NotifyOutcome.success).1 =
      ([] : List Appt) ∧
    (create_appointment ([] : List Appt) false 0 7 3 4 30 600 660 0 1 NotifyOutcome.success).2 ≠
      Except.ok () ∧
    create_appointment ([] : List Appt) false 0 7 3 4 30 600 660 0 1 NotifyOutcome.success =
      ([], Except.error (ApiErr.durationMismatch 60 30)) := by
  have h := create_duration_mismatch_rejects [] false 0 7 3 4 30 600 660 0 1
    NotifyOutcome.success (by norm_num)
  exact ⟨h.1, h.2.1, h.2.2 (by norm_num) (by norm_num) (by decide)⟩

/-- Counterexample for C5 as stated: a request with both a past start time
and a mismatched duration (60 vs 30) is rejected with the past-time
rejection, not `DurationMismatchError` — contradicting "rejected with
DurationMismatchError … regardless of the validity of every other field". -/
theorem past_mismatch_not_duration_error :
    create_appointment ([] : List Appt) false 1000 7 3 4 30 500 560 0 1 NotifyOutcome.success =
      ([], Except.error (ApiErr.validationError "Cannot schedule appointments in the past")) ∧
    create_appointment ([] : List Appt) false 1000 7 3 4 30 500 560 0 1 NotifyOutcome.success ≠
      ([], Except.error (ApiErr.durationMismatch 60 30)) :=
  ⟨by decide, by decide⟩

/-- The one way the claim's `AvailabilityCheckError` could surface. -/
inductive AvailabilityFailure where
  | availabilityCheckError
deriving DecidableEq, Repr

/-- `check_staff_availability` viewed as a fallible operation, following the
claim's words ("fails with AvailabilityCheckError"): the source function
wraps its whole body in `try … except Exception: return False`, so as an
operation that could raise it always returns normally — `.error` is never
produced. -/
def check_staff_availability_outcome (fetch : Except DbError (List Appt)) (staff : Nat)
    (startT endT : Int) (exclude : Option Nat) : Except AvailabilityFailure Bool :=
  Except.ok (check_staff_availability fetch staff startT endT exclude)

/-- C6 (amended): when the underlying data access fails, both availability
checks swallow the exception and report "unavailable" (`false`) — no
`AvailabilityCheckError` (or any error) is raised — and the booking path
consequently rejects the request with the staff-unavailable rejection,
leaving the appointment table unchanged (fail-closed). -/
theorem availability_failure_fail_closed (staff client : Nat) (s e : Int) (ex : Option Nat)
    (db : List Appt) (now : Int) (cId svId : Nat) (dur price : Int) (newId : Nat)
    (notify : NotifyOutcome) :
    check_staff_availability (Except.error DbError.failure) staff s e ex = false ∧
    check_client_availability (Except.error DbError.failure) client s e ex = false ∧
    (¬ s < now → s < e →
      create_appointment db true now cId svId staff dur s e price newId notify =
        (db, Except.error (ApiErr.validationError "Staff member is not available at the requested time"))) := by
  refine ⟨rfl, rfl, ?_⟩
  intro h1 h2
  exact create_of_validate_eq db true now cId svId staff dur s e price newId notify _
    (validate_conflict _ staff s e none now h1 h2 rfl)

/-- Witness for C6 at a concrete failing fetch and booking request. -/
theorem availability_failure_fail_closed_witness :
    check_staff_availability (Except.error DbError.failure) 4 600 630 none = false ∧
    check_client_availability (Except.error DbError.failure) 7 600 630 none = false ∧
    create_appointment ([] : List Appt) true 0 7 3 4 30 600 630 0 1 NotifyOutcome.success =
      ([], Except.error (ApiErr.validationError "Staff member is not available at the requested time")) := by
  have h := availability_failure_fail_closed 4 7 600 630 none [] 0 7 3 30 0 1
    NotifyOutcome.success
  exact ⟨h.1, h.2.1, h.2.2 (by norm_num) (by norm_num)⟩

/-- Counterexample for C6 as stated: on data-access failure the conflict
check returns the value `false` ("unavailable") — it does not fail with
`AvailabilityCheckError`. -/
theorem availability_failure_returns_value :
    check_staff_availability_outcome (Except.error DbError.failure) 4 600 630 none =
      Except.ok false ∧
    check_staff_availability_outcome (Except.error DbError.failure) 4 600 630 none ≠
      Except.error AvailabilityFailure.availabilityCheckError :=
  ⟨rfl, by decide⟩

/-- C10: `Appointment` does not install the soft-delete-filtering manager
(`SalonManager` via `SalonModelMixin`), so `Appointment.objects` is the plain
manager and the conflict query sees soft-deleted rows: any soft-deleted, not
cancelled appointment of the staff member whose interval overlaps the
proposal still produces a conflict, and the booking-validation path then
rejects the request. -/
theorem soft_deleted_blocks (db : List Appt) (staff : Nat) (s e : Int) (a : Appt)
    (ha : a ∈ db) (hdel : a.isDeleted = true) (hst : a.status ≠ Status.cancelled)
    (hstaff : a.staffId = staff) (h1 : a.startTime < e) (h2 : s < a.endTime) :
    check_staff_availability (Except.ok db) staff s e none = false ∧
    ∀ now, ¬ s < now → s < e →
      validate_appointment_time (Except.ok db) staff s e none now =
        (false, "Staff member is not available at the requested time") := by
  have hconf : db.any (staffConflict staff s e none) = true := by
    rw [List.any_eq_true]
    refine ⟨a, ha, ?_⟩
    simp [staffConflict, hstaff, h1, h2, hst]
  have havail : check_staff_availability (Except.ok db) staff s e none = false := by
    simp [check_staff_availability, hconf]
  refine ⟨havail, ?_⟩
  intro now hn hr
  exact validate_conflict _ staff s e none now hn hr havail

/-- One soft-deleted appointment used to witness C10: staff 4's completed,
soft-deleted booking `[600, 630)`. -/
def dbC10 : List Appt :=
  [{ pk := some 5, clientId := 9, serviceId := 3, staffId := 4,
     startTime := 600, endTime := 630, status := Status.completed,
     paymentStatus := PaymentStatus.paid, price := 25,
     actualStart := some 600, actualEnd := some 630, isDeleted := true }]

/-- Witness for C10: the concrete soft-deleted row in `dbC10` blocks the
overlapping proposal `[610, 640)`. -/
theorem soft_deleted_blocks_witness :
    check_staff_availability (Except.ok dbC10) 4 610 640 none = false ∧
    validate_appointment_time (Except.ok dbC10) 4 610 640 none 0 =
      (false, "Staff member is not available at the requested time") := by
  have h := soft_deleted_blocks dbC10 4 610 640
    (dbC10.get ⟨0, by decide⟩) (by decide) (by decide) (by decide) (by decide)
    (by decide) (by decide)
  exact ⟨h.1, h.2 0 (by norm_num) (by norm_num)⟩

end Salon
